import Mathlib

/-!
Verification development for the membership-status reconciliation core of the
sports-picks application (file `actions/stripe-actions.ts` and the profile
schema in `db/schema/profiles-schema.ts`).

The TypeScript functions `getMembershipStatus`, `updateStripeCustomer` and
`manageSubscriptionStatusChange` are embedded shallowly.  External
collaborators (the Stripe client and the profile-store actions, whose
implementations live outside this module) are modelled as an explicit
environment of oracles; each operation returns its result together with the
ordered list of external calls (events) it performed, so that ordering,
frame and call-count properties can be stated.
-/

/-- Membership tier, mirroring `MembershipStatus = "free" | "pro"` from
`db/schema/profiles-schema.ts` (`membershipEnum` has exactly these values). -/
inductive MembershipStatus where
  | free : MembershipStatus
  | pro : MembershipStatus
deriving DecidableEq, Repr

/-- Parse a raw metadata string into a membership tier.  Mirrors the runtime
check `["free", "pro"].includes(membership)` that guards the unchecked cast
`product.metadata.membership as MembershipStatus` in the source: exactly the
strings `"free"` and `"pro"` are accepted. -/
def MembershipStatus.ofString (s : String) : Option MembershipStatus :=
  if s = "free" then some MembershipStatus.free
  else if s = "pro" then some MembershipStatus.pro
  else none

/-- A Stripe subscription as the reconciler consumes it: its `id` and its
lifecycle `status` string.  The status is kept as a raw string because the
switch in the source has a default branch handling any unrecognized value. -/
structure Subscription where
  id : String
  status : String
deriving DecidableEq, Repr

/-- Product metadata: the `membership` key may be absent (`undefined`). -/
structure ProductMetadata where
  membership : Option String
deriving DecidableEq, Repr

/-- A Stripe product as the reconciler consumes it: `product.metadata` may be
absent, which the source checks with `!product.metadata`. -/
structure Product where
  metadata : Option ProductMetadata
deriving DecidableEq, Repr

/-- A row of the `profiles` table (`SelectProfile`), restricted to the fields
the reconciler reads or writes. -/
structure Profile where
  userId : String
  membership : MembershipStatus
  stripeCustomerId : Option String := none
  stripeSubscriptionId : Option String := none
deriving DecidableEq, Repr

/-- The partial update object passed to the profile-store actions.  A field
that is `none` is absent from the update literal and therefore not written. -/
structure ProfileUpdate where
  membership : Option MembershipStatus := none
  stripeCustomerId : Option String := none
  stripeSubscriptionId : Option String := none
deriving DecidableEq, Repr

/-- Error kinds surfaced by the reconciler, as classified in the spec: the
source throws `Error` objects whose messages correspond one-to-one to these
kinds (missing parameters, failed Stripe fetch, invalid product metadata
tier, failed DB write). -/
inductive StripeErr where
  | validation : StripeErr
  | dependency : StripeErr
  | dataIntegrity : StripeErr
  | persistence : StripeErr
deriving DecidableEq, Repr

/-- An external call performed by one of the two operations, in order:
a subscription fetch, a product fetch, or a profile write (keyed by user id
for `updateProfileAction`, by customer id for
`updateProfileByStripeCustomerIdAction`). -/
inductive Event where
  | fetchSub : String → Event
  | fetchProd : String → Event
  | writeByUserId : String → ProfileUpdate → Event
  | writeByCustomerId : String → ProfileUpdate → Event
deriving DecidableEq, Repr

/-- Whether an event is a subscription fetch. -/
def Event.isFetchSub : Event → Bool
  | Event.fetchSub _ => true
  | _ => false

/-- Whether an event is a product fetch. -/
def Event.isFetchProd : Event → Bool
  | Event.fetchProd _ => true
  | _ => false

/-- Whether an event is a profile-store write (by either key). -/
def Event.isWrite : Event → Bool
  | Event.writeByUserId _ _ => true
  | Event.writeByCustomerId _ _ => true
  | _ => false

/-- Whether an event is a profile-store write whose update object carries a
`membership` field. -/
def Event.writesMembership : Event → Bool
  | Event.writeByUserId _ u => u.membership.isSome
  | Event.writeByCustomerId _ u => u.membership.isSome
  | _ => false

/-- The environment of external collaborators: the Stripe client
(`stripe.subscriptions.retrieve`, `stripe.products.retrieve`) and the two
profile-store actions.  `none` models a failed fetch (thrown error or missing
object); a write returning `none` models `isSuccess = false`. -/
structure Env where
  subs : String → Option Subscription
  prods : String → Option Product
  writeByUser : String → ProfileUpdate → Option Profile
  writeByCustomer : String → ProfileUpdate → Option Profile

/-- Embedding of `getMembershipStatus` from `actions/stripe-actions.ts`:
a `switch` on the subscription status.  `active` and `trialing` pass the
declared membership through; the six recognized negative statuses return
`"free"`; the `default` branch also returns `"free"`. -/
def getMembershipStatus (status : String) (membership : MembershipStatus) :
    MembershipStatus :=
  if status = "active" ∨ status = "trialing" then
    membership
  else if status = "canceled" ∨ status = "incomplete" ∨
      status = "incomplete_expired" ∨ status = "past_due" ∨
      status = "paused" ∨ status = "unpaid" then
    MembershipStatus.free
  else
    MembershipStatus.free

/-- Embedding of `updateStripeCustomer`: validate the three arguments, fetch
the subscription, then write `stripeCustomerId` (the caller-supplied customer
id) and `stripeSubscriptionId` (the id carried by the fetched subscription)
onto the profile keyed by `userId`, returning the updated profile.  The
second component is the ordered trace of external calls performed. -/
def updateStripeCustomer (env : Env) (userId subscriptionId customerId : String) :
    Except StripeErr Profile × List Event :=
  if userId = "" ∨ subscriptionId = "" ∨ customerId = "" then
    (Except.error StripeErr.validation, [])
  else
    match env.subs subscriptionId with
    | none => (Except.error StripeErr.dependency, [Event.fetchSub subscriptionId])
    | some subscription =>
      match env.writeByUser userId
          { stripeCustomerId := some customerId,
            stripeSubscriptionId := some subscription.id } with
      | none =>
        (Except.error StripeErr.persistence,
         [Event.fetchSub subscriptionId,
          Event.writeByUserId userId
            { stripeCustomerId := some customerId,
              stripeSubscriptionId := some subscription.id }])
      | some profile =>
        (Except.ok profile,
         [Event.fetchSub subscriptionId,
          Event.writeByUserId userId
            { stripeCustomerId := some customerId,
              stripeSubscriptionId := some subscription.id }])

/-- Embedding of `manageSubscriptionStatusChange`: validate the three
arguments, fetch the subscription, fetch the product, validate the product
metadata tier, compute the effective tier with `getMembershipStatus`, then
write `stripeSubscriptionId` and `membership` onto the profile keyed by the
Stripe customer id, returning the effective tier.  The second component is
the ordered trace of external calls performed. -/
def manageSubscriptionStatusChange (env : Env)
    (subscriptionId customerId productId : String) :
    Except StripeErr MembershipStatus × List Event :=
  if subscriptionId = "" ∨ customerId = "" ∨ productId = "" then
    (Except.error StripeErr.validation, [])
  else
    match env.subs subscriptionId with
    | none => (Except.error StripeErr.dependency, [Event.fetchSub subscriptionId])
    | some subscription =>
      match env.prods productId with
      | none =>
        (Except.error StripeErr.dependency,
         [Event.fetchSub subscriptionId, Event.fetchProd productId])
      | some product =>
        match product.metadata with
        | none =>
          (Except.error StripeErr.dependency,
           [Event.fetchSub subscriptionId, Event.fetchProd productId])
        | some md =>
          match md.membership.bind MembershipStatus.ofString with
          | none =>
            (Except.error StripeErr.dataIntegrity,
             [Event.fetchSub subscriptionId, Event.fetchProd productId])
          | some membership =>
            match env.writeByCustomer customerId
                { membership := some (getMembershipStatus subscription.status membership),
                  stripeSubscriptionId := some subscription.id } with
            | none =>
              (Except.error StripeErr.persistence,
               [Event.fetchSub subscriptionId, Event.fetchProd productId,
                Event.writeByCustomerId customerId
                  { membership :=
                      some (getMembershipStatus subscription.status membership),
                    stripeSubscriptionId := some subscription.id }])
            | some _ =>
              (Except.ok (getMembershipStatus subscription.status membership),
               [Event.fetchSub subscriptionId, Event.fetchProd productId,
                Event.writeByCustomerId customerId
                  { membership :=
                      some (getMembershipStatus subscription.status membership),
                    stripeSubscriptionId := some subscription.id }])

/-- Modelled from the spec: the profile-store collaborator (the
implementations of `updateProfileAction` and
`updateProfileByStripeCustomerIdAction` in `actions/db/profiles-actions` are
not part of the analysed sources).  A write updates exactly the fields
present in the update object of the matching rows: `updateProfileByUserId`
matches on `userId`, `updateProfileByCustomerId` on `stripeCustomerId`;
fetches do not change the store. -/
def applyUpdate (p : Profile) (u : ProfileUpdate) : Profile :=
  { p with
    membership := u.membership.getD p.membership,
    stripeCustomerId := u.stripeCustomerId.elim p.stripeCustomerId some,
    stripeSubscriptionId := u.stripeSubscriptionId.elim p.stripeSubscriptionId some }

/-- Modelled from the spec: the effect of one external call on the profile
store (a list of profile rows).  Only write events change the store. -/
def applyEvent (store : List Profile) : Event → List Profile
  | Event.writeByUserId uid u =>
    store.map (fun p => if p.userId = uid then applyUpdate p u else p)
  | Event.writeByCustomerId cid u =>
    store.map (fun p => if p.stripeCustomerId = some cid then applyUpdate p u else p)
  | _ => store

/-- Modelled from the spec: the effect of a whole trace of external calls on
the profile store, applied in order. -/
def applyTrace (store : List Profile) (tr : List Event) : List Profile :=
  tr.foldl applyEvent store

/-- A concrete environment used to evaluate the operations on closed inputs:
one subscription `sub_1` (whose record carries the id `sub_ret`), one product
`prod_1` declaring tier `pro`, and always-succeeding profile writes. -/
def demoEnv : Env where
  subs := fun i => if i = "sub_1" then some ⟨"sub_ret", "active"⟩ else none
  prods := fun i =>
    if i = "prod_1" then some ⟨some ⟨some "pro"⟩⟩
    else if i = "prod_ent" then some ⟨some ⟨some "enterprise"⟩⟩
    else none
  writeByUser := fun uid u =>
    some { userId := uid, membership := MembershipStatus.free,
           stripeCustomerId := u.stripeCustomerId,
           stripeSubscriptionId := u.stripeSubscriptionId }
  writeByCustomer := fun _ u =>
    some { userId := "user_1",
           membership := u.membership.getD MembershipStatus.free,
           stripeCustomerId := some "cus_1",
           stripeSubscriptionId := u.stripeSubscriptionId }

/-- C2: for all `status` in {active, trialing} and every declared tier in
{free, pro}, `getMembershipStatus` returns the declared tier unchanged. -/
theorem getMembershipStatus_passthrough_active_trialing :
    ∀ t : MembershipStatus,
      getMembershipStatus "active" t = t ∧ getMembershipStatus "trialing" t = t := by
  intro t
  constructor <;> rfl

/-- C3: for every status outside {active, trialing} — recognized negative or
unrecognized — and every declared tier, `getMembershipStatus` returns `free`;
and it returns `pro` only when the status is active or trialing and the
declared tier is `pro`. -/
theorem getMembershipStatus_failsafe_free :
    (∀ (s : String) (t : MembershipStatus), s ≠ "active" → s ≠ "trialing" →
        getMembershipStatus s t = MembershipStatus.free) ∧
    (∀ (s : String) (t : MembershipStatus),
        getMembershipStatus s t = MembershipStatus.pro →
        (s = "active" ∨ s = "trialing") ∧ t = MembershipStatus.pro) := by
  constructor
  · intro s t h1 h2
    unfold getMembershipStatus
    rw [if_neg (by simp [h1, h2])]
    split <;> rfl
  · intro s t h
    unfold getMembershipStatus at h
    by_cases hc : s = "active" ∨ s = "trialing"
    · rw [if_pos hc] at h
      exact ⟨hc, h⟩
    · rw [if_neg hc] at h
      split at h <;> exact absurd h (by simp)

/-- Witness for C3 at concrete inputs: an unrecognized status maps to free,
and an output of pro forces an active status with declared tier pro. -/
theorem getMembershipStatus_failsafe_free_witness :
    getMembershipStatus "some_future_status" MembershipStatus.pro =
      MembershipStatus.free ∧
    (("active" = "active" ∨ "active" = "trialing") ∧
      MembershipStatus.pro = MembershipStatus.pro) :=
  ⟨getMembershipStatus_failsafe_free.1 "some_future_status" MembershipStatus.pro
      (by decide) (by decide),
   getMembershipStatus_failsafe_free.2 "active" MembershipStatus.pro (by rfl)⟩

/-- C9: `getMembershipStatus` is total over its whole input domain with no
error outcome (its result is always one of the two tiers), and it is
deterministic: runs on equal inputs yield equal outputs.  As embedded it is a
plain function, performing no external call and touching no state. -/
theorem getMembershipStatus_pure_total :
    ∀ (s : String) (t : MembershipStatus),
      (getMembershipStatus s t = MembershipStatus.free ∨
        getMembershipStatus s t = MembershipStatus.pro) ∧
      (∀ (s2 : String) (t2 : MembershipStatus), s2 = s → t2 = t →
        getMembershipStatus s2 t2 = getMembershipStatus s t) := by
  intro s t
  constructor
  · cases h : getMembershipStatus s t
    · exact Or.inl rfl
    · exact Or.inr rfl
  · intro s2 t2 hs ht
    rw [hs, ht]

/-- Witness for C9 at a concrete input: totality and determinism at
`("canceled", pro)`. -/
theorem getMembershipStatus_pure_total_witness :
    (getMembershipStatus "canceled" MembershipStatus.pro = MembershipStatus.free ∨
      getMembershipStatus "canceled" MembershipStatus.pro = MembershipStatus.pro) ∧
    (∀ (s2 : String) (t2 : MembershipStatus),
      s2 = "canceled" → t2 = MembershipStatus.pro →
      getMembershipStatus s2 t2 =
        getMembershipStatus "canceled" MembershipStatus.pro) :=
  getMembershipStatus_pure_total "canceled" MembershipStatus.pro

/-- C1: when all three arguments are non-empty, the subscription and product
fetches succeed, the product metadata tier parses as free or pro, and the
profile write succeeds, `manageSubscriptionStatusChange` performs exactly the
write of `membership = getMembershipStatus(subscription.status, tier)` and
`stripeSubscriptionId = subscription.id` keyed by the customer id, and
returns that same membership value. -/
theorem manageSubscriptionStatusChange_persists_and_returns
    (env : Env) (subscriptionId customerId productId : String)
    (hs : subscriptionId ≠ "") (hc : customerId ≠ "") (hp : productId ≠ "")
    (sub : Subscription) (hsub : env.subs subscriptionId = some sub)
    (prod : Product) (hprod : env.prods productId = some prod)
    (md : ProductMetadata) (hmd : prod.metadata = some md)
    (tier : MembershipStatus)
    (htier : md.membership.bind MembershipStatus.ofString = some tier)
    (p : Profile)
    (hw : env.writeByCustomer customerId
        { membership := some (getMembershipStatus sub.status tier),
          stripeSubscriptionId := some sub.id } = some p) :
    manageSubscriptionStatusChange env subscriptionId customerId productId =
      (Except.ok (getMembershipStatus sub.status tier),
       [Event.fetchSub subscriptionId, Event.fetchProd productId,
        Event.writeByCustomerId customerId
          { membership := some (getMembershipStatus sub.status tier),
            stripeSubscriptionId := some sub.id }]) := by
  unfold manageSubscriptionStatusChange
  rw [if_neg (by simp [hs, hc, hp])]
  simp only [hsub, hprod, hmd, htier, hw]

/-- Witness for C1: on the concrete environment, reconciling
`("sub_1", "cus_1", "prod_1")` persists membership `pro` (product tier `pro`,
status `active`) together with the fetched subscription id `sub_ret`, and
returns `pro`. -/
theorem manageSubscriptionStatusChange_persists_and_returns_witness :
    manageSubscriptionStatusChange demoEnv "sub_1" "cus_1" "prod_1" =
      (Except.ok MembershipStatus.pro,
       [Event.fetchSub "sub_1", Event.fetchProd "prod_1",
        Event.writeByCustomerId "cus_1"
          { membership := some MembershipStatus.pro,
            stripeSubscriptionId := some "sub_ret" }]) :=
  manageSubscriptionStatusChange_persists_and_returns demoEnv "sub_1" "cus_1"
    "prod_1" (by decide) (by decide) (by decide)
    ⟨"sub_ret", "active"⟩ (by decide)
    ⟨some ⟨some "pro"⟩⟩ (by decide)
    ⟨some "pro"⟩ (by decide)
    MembershipStatus.pro (by rfl)
    { userId := "user_1", membership := MembershipStatus.pro,
      stripeCustomerId := some "cus_1", stripeSubscriptionId := some "sub_ret" }
    (by decide)

/-- C7: when all three arguments are non-empty, the subscription fetch
succeeds and the profile write succeeds, `updateStripeCustomer` writes the
caller-supplied customer id and the id carried by the fetched subscription
record (not the caller-supplied subscription id) onto the profile keyed by
the user id, and returns the updated profile. -/
theorem updateStripeCustomer_writes_ids
    (env : Env) (userId subscriptionId customerId : String)
    (hu : userId ≠ "") (hs : subscriptionId ≠ "") (hc : customerId ≠ "")
    (sub : Subscription) (hsub : env.subs subscriptionId = some sub)
    (p : Profile)
    (hw : env.writeByUser userId
        { stripeCustomerId := some customerId,
          stripeSubscriptionId := some sub.id } = some p) :
    updateStripeCustomer env userId subscriptionId customerId =
      (Except.ok p,
       [Event.fetchSub subscriptionId,
        Event.writeByUserId userId
          { stripeCustomerId := some customerId,
            stripeSubscriptionId := some sub.id }]) := by
  unfold updateStripeCustomer
  rw [if_neg (by simp [hu, hs, hc])]
  simp only [hsub, hw]

/-- Witness for C7: on the concrete environment the fetched subscription
record for `sub_1` carries the different id `sub_ret`, and that id — not the
caller-supplied `sub_1` — is what gets written, together with the
caller-supplied customer id. -/
theorem updateStripeCustomer_writes_ids_witness :
    updateStripeCustomer demoEnv "user_1" "sub_1" "cus_1" =
      (Except.ok
        { userId := "user_1", membership := MembershipStatus.free,
          stripeCustomerId := some "cus_1",
          stripeSubscriptionId := some "sub_ret" },
       [Event.fetchSub "sub_1",
        Event.writeByUserId "user_1"
          { stripeCustomerId := some "cus_1",
            stripeSubscriptionId := some "sub_ret" }]) :=
  updateStripeCustomer_writes_ids demoEnv "user_1" "sub_1" "cus_1"
    (by decide) (by decide) (by decide)
    ⟨"sub_ret", "active"⟩ (by decide)
    { userId := "user_1", membership := MembershipStatus.free,
      stripeCustomerId := some "cus_1", stripeSubscriptionId := some "sub_ret" }
    (by decide)

/-- C5: when the arguments are non-empty but the subscription fetch fails,
`manageSubscriptionStatusChange` fails with the dependency error and its
trace is exactly the one subscription fetch: no product fetch and no profile
write occur. -/
theorem manageSubscriptionStatusChange_subFetchFailure
    (env : Env) (subscriptionId customerId productId : String)
    (hs : subscriptionId ≠ "") (hc : customerId ≠ "") (hp : productId ≠ "")
    (hfail : env.subs subscriptionId = none) :
    manageSubscriptionStatusChange env subscriptionId customerId productId =
      (Except.error StripeErr.dependency, [Event.fetchSub subscriptionId]) ∧
    (manageSubscriptionStatusChange env subscriptionId customerId
        productId).2.countP Event.isFetchProd = 0 ∧
    (manageSubscriptionStatusChange env subscriptionId customerId
        productId).2.countP Event.isWrite = 0 := by
  have h : manageSubscriptionStatusChange env subscriptionId customerId productId =
      (Except.error StripeErr.dependency, [Event.fetchSub subscriptionId]) := by
    unfold manageSubscriptionStatusChange
    rw [if_neg (by simp [hs, hc, hp])]
    simp only [hfail]
  refine ⟨h, ?_, ?_⟩ <;>
    simp [h, List.countP_cons, Event.isFetchProd, Event.isWrite]

/-- Witness for C5: on the concrete environment, the id `sub_missing` has no
subscription, so reconciling it fails with the dependency error after the
lone subscription fetch. -/
theorem manageSubscriptionStatusChange_subFetchFailure_witness :
    manageSubscriptionStatusChange demoEnv "sub_missing" "cus_1" "prod_1" =
      (Except.error StripeErr.dependency, [Event.fetchSub "sub_missing"]) ∧
    (manageSubscriptionStatusChange demoEnv "sub_missing" "cus_1"
        "prod_1").2.countP Event.isFetchProd = 0 ∧
    (manageSubscriptionStatusChange demoEnv "sub_missing" "cus_1"
        "prod_1").2.countP Event.isWrite = 0 :=
  manageSubscriptionStatusChange_subFetchFailure demoEnv "sub_missing" "cus_1"
    "prod_1" (by decide) (by decide) (by decide) (by decide)

/-- C6: if any required argument is the empty string, each operation fails
with the validation error and its trace is empty — no subscription fetch, no
product fetch and no profile write. -/
theorem reconciler_empty_arg_validation
    (env : Env) (userId subscriptionId customerId productId : String) :
    (userId = "" ∨ subscriptionId = "" ∨ customerId = "" →
      updateStripeCustomer env userId subscriptionId customerId =
        (Except.error StripeErr.validation, [])) ∧
    (subscriptionId = "" ∨ customerId = "" ∨ productId = "" →
      manageSubscriptionStatusChange env subscriptionId customerId productId =
        (Except.error StripeErr.validation, [])) := by
  constructor
  · intro h
    unfold updateStripeCustomer
    rw [if_pos h]
  · intro h
    unfold manageSubscriptionStatusChange
    rw [if_pos h]

/-- Witness for C6: the bind operation invoked with an empty user id fails
with the validation error and makes no external call, and likewise the
reconcile operation with an empty subscription id. -/
theorem reconciler_empty_arg_validation_witness :
    updateStripeCustomer demoEnv "" "sub_1" "cus_1" =
      (Except.error StripeErr.validation, []) ∧
    manageSubscriptionStatusChange demoEnv "" "cus_1" "prod_1" =
      (Except.error StripeErr.validation, []) :=
  ⟨(reconciler_empty_arg_validation demoEnv "" "sub_1" "cus_1" "prod_1").1
      (Or.inl rfl),
   (reconciler_empty_arg_validation demoEnv "sub_x" "" "cus_1" "prod_1").2
      (Or.inl rfl)⟩

/-- Auxiliary: a metadata membership string other than `"free"` and `"pro"`
(or an absent one) does not parse as a membership tier. -/
theorem metadata_tier_invalid_parse (md : ProductMetadata)
    (hbad : ∀ s, md.membership = some s → s ≠ "free" ∧ s ≠ "pro") :
    md.membership.bind MembershipStatus.ofString = none := by
  cases hm : md.membership with
  | none => rfl
  | some s =>
    have h := hbad s hm
    simp [MembershipStatus.ofString, h.1, h.2]

/-- C4: when the metadata membership of the fetched product is neither exactly
`"free"` nor `"pro"` (for example `"enterprise"`, or absent),
`manageSubscriptionStatusChange` fails with the data-integrity error, its
trace contains no profile write, and replaying the trace leaves any profile
store unchanged. -/
theorem manageSubscriptionStatusChange_invalidTier
    (env : Env) (subscriptionId customerId productId : String)
    (hs : subscriptionId ≠ "") (hc : customerId ≠ "") (hp : productId ≠ "")
    (sub : Subscription) (hsub : env.subs subscriptionId = some sub)
    (prod : Product) (hprod : env.prods productId = some prod)
    (md : ProductMetadata) (hmd : prod.metadata = some md)
    (hbad : ∀ s, md.membership = some s → s ≠ "free" ∧ s ≠ "pro") :
    manageSubscriptionStatusChange env subscriptionId customerId productId =
      (Except.error StripeErr.dataIntegrity,
       [Event.fetchSub subscriptionId, Event.fetchProd productId]) ∧
    (manageSubscriptionStatusChange env subscriptionId customerId
        productId).2.countP Event.isWrite = 0 ∧
    (∀ store : List Profile,
      applyTrace store (manageSubscriptionStatusChange env subscriptionId
        customerId productId).2 = store) := by
  have h : manageSubscriptionStatusChange env subscriptionId customerId productId =
      (Except.error StripeErr.dataIntegrity,
       [Event.fetchSub subscriptionId, Event.fetchProd productId]) := by
    unfold manageSubscriptionStatusChange
    rw [if_neg (by simp [hs, hc, hp])]
    simp only [hsub, hprod, hmd, metadata_tier_invalid_parse md hbad]
  refine ⟨h, ?_, ?_⟩
  · simp [h, List.countP_cons, Event.isWrite]
  · intro store
    simp [h, applyTrace, applyEvent]

/-- Witness for C4: reconciling against the product `prod_ent`, whose
metadata tier is `"enterprise"`, fails with the data-integrity error, writes
nothing, and leaves a one-row profile store unchanged. -/
theorem manageSubscriptionStatusChange_invalidTier_witness :
    manageSubscriptionStatusChange demoEnv "sub_1" "cus_1" "prod_ent" =
      (Except.error StripeErr.dataIntegrity,
       [Event.fetchSub "sub_1", Event.fetchProd "prod_ent"]) ∧
    (manageSubscriptionStatusChange demoEnv "sub_1" "cus_1"
        "prod_ent").2.countP Event.isWrite = 0 ∧
    (∀ store : List Profile,
      applyTrace store (manageSubscriptionStatusChange demoEnv "sub_1" "cus_1"
        "prod_ent").2 = store) :=
  manageSubscriptionStatusChange_invalidTier demoEnv "sub_1" "cus_1" "prod_ent"
    (by decide) (by decide) (by decide)
    ⟨"sub_ret", "active"⟩ (by decide)
    ⟨some ⟨some "enterprise"⟩⟩ (by decide)
    ⟨some "enterprise"⟩ (by decide)
    (by
      intro s hs2
      have h : s = "enterprise" := by simpa using hs2.symm
      subst h
      exact ⟨by decide, by decide⟩)

/-- Case analysis of `updateStripeCustomer`: every execution is a validation
failure with an empty trace, a dependency failure after the lone subscription
fetch, or a write attempt (failed or successful) after the subscription
fetch, with the update carrying the customer id and the fetched
id of the fetched subscription. -/
theorem updateStripeCustomer_cases (env : Env)
    (userId subscriptionId customerId : String) :
    updateStripeCustomer env userId subscriptionId customerId =
      (Except.error StripeErr.validation, []) ∨
    updateStripeCustomer env userId subscriptionId customerId =
      (Except.error StripeErr.dependency, [Event.fetchSub subscriptionId]) ∨
    ∃ sub : Subscription, env.subs subscriptionId = some sub ∧
      (updateStripeCustomer env userId subscriptionId customerId =
        (Except.error StripeErr.persistence,
         [Event.fetchSub subscriptionId,
          Event.writeByUserId userId
            { stripeCustomerId := some customerId,
              stripeSubscriptionId := some sub.id }]) ∨
       ∃ p : Profile,
         env.writeByUser userId
           { stripeCustomerId := some customerId,
             stripeSubscriptionId := some sub.id } = some p ∧
         updateStripeCustomer env userId subscriptionId customerId =
           (Except.ok p,
            [Event.fetchSub subscriptionId,
             Event.writeByUserId userId
               { stripeCustomerId := some customerId,
                 stripeSubscriptionId := some sub.id }])) := by
  unfold updateStripeCustomer
  split
  · exact Or.inl rfl
  · split
    · exact Or.inr (Or.inl rfl)
    · rename_i sub heq
      split
      · rename_i heqw
        exact Or.inr (Or.inr ⟨sub, heq, Or.inl rfl⟩)
      · rename_i p heqw
        exact Or.inr (Or.inr ⟨sub, heq, Or.inr ⟨p, heqw, rfl⟩⟩)

/-- Case analysis of `manageSubscriptionStatusChange`: every execution is a
validation failure with an empty trace, a dependency failure after one or two
fetches, a data-integrity failure after both fetches, or a write attempt
(failed or successful) after both fetches, with the update carrying the
computed tier and the fetched id of the fetched subscription. -/
theorem manageSubscriptionStatusChange_cases (env : Env)
    (subscriptionId customerId productId : String) :
    manageSubscriptionStatusChange env subscriptionId customerId productId =
      (Except.error StripeErr.validation, []) ∨
    manageSubscriptionStatusChange env subscriptionId customerId productId =
      (Except.error StripeErr.dependency, [Event.fetchSub subscriptionId]) ∨
    manageSubscriptionStatusChange env subscriptionId customerId productId =
      (Except.error StripeErr.dependency,
       [Event.fetchSub subscriptionId, Event.fetchProd productId]) ∨
    manageSubscriptionStatusChange env subscriptionId customerId productId =
      (Except.error StripeErr.dataIntegrity,
       [Event.fetchSub subscriptionId, Event.fetchProd productId]) ∨
    ∃ (sub : Subscription) (tier : MembershipStatus),
      env.subs subscriptionId = some sub ∧
      (manageSubscriptionStatusChange env subscriptionId customerId productId =
        (Except.error StripeErr.persistence,
         [Event.fetchSub subscriptionId, Event.fetchProd productId,
          Event.writeByCustomerId customerId
            { membership := some (getMembershipStatus sub.status tier),
              stripeSubscriptionId := some sub.id }]) ∨
       manageSubscriptionStatusChange env subscriptionId customerId productId =
        (Except.ok (getMembershipStatus sub.status tier),
         [Event.fetchSub subscriptionId, Event.fetchProd productId,
          Event.writeByCustomerId customerId
            { membership := some (getMembershipStatus sub.status tier),
              stripeSubscriptionId := some sub.id }])) := by
  unfold manageSubscriptionStatusChange
  split
  · exact Or.inl rfl
  · split
    · exact Or.inr (Or.inl rfl)
    · rename_i sub heq
      split
      · exact Or.inr (Or.inr (Or.inl rfl))
      · split
        · exact Or.inr (Or.inr (Or.inl rfl))
        · split
          · exact Or.inr (Or.inr (Or.inr (Or.inl rfl)))
          · rename_i tier heqt
            split
            · exact Or.inr (Or.inr (Or.inr (Or.inr
                ⟨sub, tier, heq, Or.inl rfl⟩)))
            · exact Or.inr (Or.inr (Or.inr (Or.inr
                ⟨sub, tier, heq, Or.inr rfl⟩)))

/-- C10: every external call of the bind operation that is a profile write
carries no `membership` field in its update object — it writes only the
payment identifiers, keyed by the user id with the caller-supplied customer
id — so binding payment identifiers never changes the membership tier. -/
theorem updateStripeCustomer_never_writes_membership
    (env : Env) (userId subscriptionId customerId : String) :
    ∀ e ∈ (updateStripeCustomer env userId subscriptionId customerId).2,
      e.writesMembership = false ∧
      (e.isWrite = true → ∃ u : ProfileUpdate,
        e = Event.writeByUserId userId u ∧ u.membership = none ∧
        u.stripeCustomerId = some customerId) := by
  intro e he
  rcases updateStripeCustomer_cases env userId subscriptionId customerId with
    h | h | ⟨sub, hsub, h | ⟨p, hw, h⟩⟩ <;> rw [h] at he <;> simp only at he
  · simp at he
  · simp at he
    subst he
    exact ⟨rfl, by simp [Event.isWrite]⟩
  · rcases List.mem_pair.mp (by simpa using he) with he | he <;> subst he
    · exact ⟨rfl, by simp [Event.isWrite]⟩
    · exact ⟨rfl, fun _ => ⟨_, rfl, rfl, rfl⟩⟩
  · rcases List.mem_pair.mp (by simpa using he) with he | he <;> subst he
    · exact ⟨rfl, by simp [Event.isWrite]⟩
    · exact ⟨rfl, fun _ => ⟨_, rfl, rfl, rfl⟩⟩

/-- Witness for C10: in the successful bind execution on the concrete
environment, the write event of the trace carries no membership field. -/
theorem updateStripeCustomer_never_writes_membership_witness :
    (Event.writeByUserId "user_1"
        { stripeCustomerId := some "cus_1",
          stripeSubscriptionId := some "sub_ret" }).writesMembership = false :=
  (updateStripeCustomer_never_writes_membership demoEnv "user_1" "sub_1" "cus_1"
    (Event.writeByUserId "user_1"
      { stripeCustomerId := some "cus_1",
        stripeSubscriptionId := some "sub_ret" })
    (by decide)).1

/-- Counterexample to C8 as stated: the execution of the bind operation with
an empty user id performs zero subscription reads and zero profile writes,
not exactly one of each. -/
theorem reconciler_single_calls_counterexample :
    ¬ ((updateStripeCustomer demoEnv "" "sub_1" "cus_1").2.countP
        Event.isFetchSub = 1 ∧
       (updateStripeCustomer demoEnv "" "sub_1" "cus_1").2.countP
        Event.isWrite = 1) := by
  decide

/-- C8 (amended): in every execution of either operation each external call
is made at most once — at most one subscription read, at most one product
read (none at all for the bind operation), at most one profile write, and
the trace repeats no call, so nothing is retried; in every execution that
returns success there is exactly one subscription read, exactly one profile
write, and, for the reconcile operation, exactly one product read.  Any
failure aborts the operation, surfacing the error with no call made after
the failing one. -/
theorem reconciler_single_calls (env : Env)
    (userId subscriptionId customerId productId : String) :
    ((updateStripeCustomer env userId subscriptionId customerId).2.Nodup ∧
     (updateStripeCustomer env userId subscriptionId customerId).2.countP
        Event.isFetchSub ≤ 1 ∧
     (updateStripeCustomer env userId subscriptionId customerId).2.countP
        Event.isFetchProd = 0 ∧
     (updateStripeCustomer env userId subscriptionId customerId).2.countP
        Event.isWrite ≤ 1 ∧
     (∀ p : Profile,
       (updateStripeCustomer env userId subscriptionId customerId).1 =
          Except.ok p →
       (updateStripeCustomer env userId subscriptionId customerId).2.countP
          Event.isFetchSub = 1 ∧
       (updateStripeCustomer env userId subscriptionId customerId).2.countP
          Event.isWrite = 1)) ∧
    ((manageSubscriptionStatusChange env subscriptionId customerId
        productId).2.Nodup ∧
     (manageSubscriptionStatusChange env subscriptionId customerId
        productId).2.countP Event.isFetchSub ≤ 1 ∧
     (manageSubscriptionStatusChange env subscriptionId customerId
        productId).2.countP Event.isFetchProd ≤ 1 ∧
     (manageSubscriptionStatusChange env subscriptionId customerId
        productId).2.countP Event.isWrite ≤ 1 ∧
     (∀ t : MembershipStatus,
       (manageSubscriptionStatusChange env subscriptionId customerId
          productId).1 = Except.ok t →
       (manageSubscriptionStatusChange env subscriptionId customerId
          productId).2.countP Event.isFetchSub = 1 ∧
       (manageSubscriptionStatusChange env subscriptionId customerId
          productId).2.countP Event.isFetchProd = 1 ∧
       (manageSubscriptionStatusChange env subscriptionId customerId
          productId).2.countP Event.isWrite = 1)) := by
  constructor
  · rcases updateStripeCustomer_cases env userId subscriptionId customerId with
      h | h | ⟨sub, hsub, h | ⟨p, hw, h⟩⟩ <;>
      rw [h] <;>
      simp [List.countP_cons, Event.isFetchSub, Event.isFetchProd, Event.isWrite]
  · rcases manageSubscriptionStatusChange_cases env subscriptionId customerId
      productId with h | h | h | h | ⟨sub, tier, hsub, h | h⟩ <;>
      rw [h] <;>
      simp [List.countP_cons, Event.isFetchSub, Event.isFetchProd, Event.isWrite]

/-- Witness for the amended C8: the trace bounds at the concrete successful
reconcile execution, instantiating the success case with the returned tier. -/
theorem reconciler_single_calls_witness :
    (manageSubscriptionStatusChange demoEnv "sub_1" "cus_1" "prod_1").2.countP
      Event.isFetchSub = 1 ∧
    (manageSubscriptionStatusChange demoEnv "sub_1" "cus_1" "prod_1").2.countP
      Event.isFetchProd = 1 ∧
    (manageSubscriptionStatusChange demoEnv "sub_1" "cus_1" "prod_1").2.countP
      Event.isWrite = 1 :=
  (reconciler_single_calls demoEnv "user_1" "sub_1" "cus_1" "prod_1").2.2.2.2.2
    MembershipStatus.pro (by rfl)
